import Mathlib

/-!
Shallow embedding of the note-taking backend (controllers and Mongoose
models under `backend/`).  Entities are records over `Nat` storage ids
(Mongo `_id`); collections are lists; each request handler is a pure
function from a store (plus the authenticated requester context) to an
HTTP status and the updated store.  Mongo array-field queries
(`{field: v}` matching documents whose array contains `v`, `$in`,
`$pull`, `$addToSet`, `deleteMany`, `updateMany`) are modelled with the
corresponding list operations.  Date / timestamp metadata and the
response `populate` steps are omitted: they affect only response bodies,
not statuses or stored data; list endpoints are modelled as the set of
returned documents (the final sort does not change membership).
-/

namespace NoteApp

/-- The role enumeration of `userSchema.roles`. -/
inductive Role where
  | admin
  | leadEditor
  | editor
  | contributor
deriving DecidableEq, Repr

/-- The `view_type` enumeration of `noteSchema.view_type`. -/
inductive ViewType where
  | vpublic
  | vprivate
  | vshared
deriving DecidableEq, Repr

/-- The `parent_type` discriminator of `attachmentSchema`. -/
inductive ParentType where
  | pNote
  | pComment
  | pGroup
deriving DecidableEq, Repr

/-- `User` model (models/User.js).  `password` holds the bcrypt hash
produced by the pre-save hook; hashing itself is out of scope and is
passed in as a function where needed. -/
structure User where
  id : Nat
  user_name : String
  first_name : String
  last_name : String
  email : String
  password : String
  roles : List Role
deriving DecidableEq, Repr

/-- `Note` model (models/Note.js).  Reference arrays hold storage ids. -/
structure Note where
  id : Nat
  uid : Nat
  title : String
  content : String
  tags : List Nat
  notebooks : List Nat
  connected_notes : List Nat
  attachments : List Nat
  comments : List Nat
  view_type : ViewType
deriving DecidableEq, Repr

/-- `Tag` model (models/Tag.js). -/
structure Tag where
  id : Nat
  tag_name : String
  notes : List Nat
deriving DecidableEq, Repr

/-- `Notebook` model (models/Notebook.js). -/
structure Notebook where
  id : Nat
  notebook_name : String
  owner : Nat
  parent_notebook : Option Nat
  notes : List Nat
  accessible_groups : List Nat
deriving DecidableEq, Repr

/-- `Group` model (models/Group.js). -/
structure Group where
  id : Nat
  group_name : String
  lead_editor : Nat
  members : List Nat
  accessible_notebooks : List Nat
  attachments : List Nat
deriving DecidableEq, Repr

/-- `Comment` model (models/Comment.js). -/
structure Comment where
  id : Nat
  user : Nat
  note : Nat
  comment_text : String
  attachments : List Nat
deriving DecidableEq, Repr

/-- `Attachment` model (models/Attachment.js), with its polymorphic
parent reference. -/
structure Attachment where
  id : Nat
  parent_type : ParentType
  parent_id : Nat
  file_name : String
  file_type : String
  url : String
deriving DecidableEq, Repr

/-- The database: one list per collection. -/
structure Store where
  users : List User
  notes : List Note
  tags : List Tag
  notebooks : List Notebook
  groups : List Group
  comments : List Comment
  attachments : List Attachment
deriving DecidableEq, Repr

/-- The authenticated requester attached to the request by the auth
middleware: `req.userId` and `req.user.roles`. -/
structure Ctx where
  userId : Nat
  roles : List Role
deriving DecidableEq, Repr

/-- `userRoles.includes(r)`. -/
def hasRole (rs : List Role) (r : Role) : Bool :=
  rs.contains r

/-- `Model.findById` over a collection. -/
def findNote (s : Store) (id : Nat) : Option Note :=
  s.notes.find? (fun n => n.id == id)

def findTag (s : Store) (id : Nat) : Option Tag :=
  s.tags.find? (fun t => t.id == id)

def findNotebook (s : Store) (id : Nat) : Option Notebook :=
  s.notebooks.find? (fun b => b.id == id)

def findGroup (s : Store) (id : Nat) : Option Group :=
  s.groups.find? (fun g => g.id == id)

def findComment (s : Store) (id : Nat) : Option Comment :=
  s.comments.find? (fun c => c.id == id)

/-- Saving a fetched-and-mutated document: replace the document with
that `_id` by the new version (Mongo `_id` is the collection key). -/
def saveNote (l : List Note) (n : Note) : List Note :=
  l.map (fun x => if x.id == n.id then n else x)

def saveTag (l : List Tag) (t : Tag) : List Tag :=
  l.map (fun x => if x.id == t.id then t else x)

def saveGroup (l : List Group) (g : Group) : List Group :=
  l.map (fun x => if x.id == g.id then g else x)

/-! ### noteController.js -/

/-- Body of `PUT /api/notes/:id`; `none` is an absent (`undefined`)
field, exactly the `!== undefined` guards of `updateNote`. -/
structure UpdateNoteReq where
  title : Option String
  content : Option String
  tags : Option (List Nat)
  notebook_ids : Option (List Nat)
  view_type : Option ViewType
deriving DecidableEq, Repr

/-- The `canEdit` / `canDelete` check of `updateNote` and `deleteNote`:
Admin, Editor, Lead Editor, or the note's creator (`note.UID`). -/
def canEditNote (ctx : Ctx) (n : Note) : Bool :=
  hasRole ctx.roles Role.admin ||
  hasRole ctx.roles Role.editor ||
  hasRole ctx.roles Role.leadEditor ||
  n.uid == ctx.userId

/-- `createNote` (`POST /api/notes`).  `newId` stands for the freshly
generated storage id.  JS `!title` rejects the empty string with 400;
absent `tags` / `notebook_ids` default to `[]`; `view_type` takes the
schema default `private`. -/
def createNote (s : Store) (ctx : Ctx) (newId : Nat) (title content : String)
    (tags notebook_ids connected_note_ids : Option (List Nat)) : Nat × Store :=
  if title = "" then (400, s)
  else
    let n : Note :=
      { id := newId, uid := ctx.userId, title := title, content := content,
        tags := tags.getD [], notebooks := notebook_ids.getD [],
        connected_notes := connected_note_ids.getD [],
        attachments := [], comments := [], view_type := ViewType.vprivate }
    (201, { s with notes := s.notes ++ [n] })

/-- The query built by `getNotes` (`GET /api/notes`): non-admins see
`$or: [{UID: userId}, {view_type: public}, {view_type: shared}]`; the
optional filters match against the array fields; the `user_id` filter
applies only to admins. -/
def matchesNotesQuery (ctx : Ctx) (notebook_id tag_id user_id : Option Nat)
    (n : Note) : Bool :=
  (hasRole ctx.roles Role.admin ||
    (n.uid == ctx.userId || n.view_type == ViewType.vpublic ||
      n.view_type == ViewType.vshared)) &&
  (match notebook_id with
   | some b => n.notebooks.contains b
   | none => true) &&
  (match tag_id with
   | some t => n.tags.contains t
   | none => true) &&
  (match user_id with
   | some u => !(hasRole ctx.roles Role.admin) || n.uid == u
   | none => true)

/-- `getNotes`: the set of notes returned (sorting omitted). -/
def getNotes (s : Store) (ctx : Ctx)
    (notebook_id tag_id user_id : Option Nat) : List Note :=
  s.notes.filter (matchesNotesQuery ctx notebook_id tag_id user_id)

/-- `getNoteById` (`GET /api/notes/:id`): 404 when absent, 403 when the
requester is not Admin, not the creator, and the note is private. -/
def getNoteById (s : Store) (ctx : Ctx) (id : Nat) : Nat :=
  match findNote s id with
  | none => 404
  | some note =>
    if !(hasRole ctx.roles Role.admin) && note.uid != ctx.userId &&
        note.view_type == ViewType.vprivate then 403
    else 200

/-- `updateNote` (`PUT /api/notes/:id`). -/
def updateNote (s : Store) (ctx : Ctx) (id : Nat) (req : UpdateNoteReq) :
    Nat × Store :=
  match findNote s id with
  | none => (404, s)
  | some note =>
    if !(canEditNote ctx note) then (403, s)
    else
      let note' : Note :=
        { note with
          title := req.title.getD note.title,
          content := req.content.getD note.content,
          tags := req.tags.getD note.tags,
          notebooks := req.notebook_ids.getD note.notebooks,
          view_type := req.view_type.getD note.view_type }
      (200, { s with notes := saveNote s.notes note' })

/-- `deleteNote` (`DELETE /api/notes/:id`): after the permission check,
`Comment.deleteMany({note: id})`,
`Attachment.deleteMany({parent_type: Note, parent_id: id})`, then the
note itself. -/
def deleteNote (s : Store) (ctx : Ctx) (id : Nat) : Nat × Store :=
  match findNote s id with
  | none => (404, s)
  | some note =>
    if !(canEditNote ctx note) then (403, s)
    else
      (200, { s with
        comments := s.comments.filter (fun c => c.note != id),
        attachments := s.attachments.filter
          (fun a => !(a.parent_type == ParentType.pNote && a.parent_id == id)),
        notes := s.notes.filter (fun n => n.id != id) })

/-- `addTagToNote` (`POST /api/notes/:id/tags`): pushes onto both
`note.tags` and `tag.notes`, each guarded by an `includes` check, the
second nested inside the first. -/
def addTagToNote (s : Store) (noteId tagId : Nat) : Nat × Store :=
  match findNote s noteId, findTag s tagId with
  | some note, some tag =>
    if !(note.tags.contains tagId) then
      let s1 : Store :=
        { s with notes := saveNote s.notes { note with tags := note.tags ++ [tagId] } }
      if !(tag.notes.contains noteId) then
        (200, { s1 with tags := saveTag s1.tags { tag with notes := tag.notes ++ [noteId] } })
      else (200, s1)
    else (200, s)
  | _, _ => (404, s)

/-! ### tagController.js -/

/-- `deleteTag` (`DELETE /api/tags/:id`): `$pull`s the tag from every
note's `tags` array, then removes the tag. -/
def deleteTag (s : Store) (id : Nat) : Nat × Store :=
  match findTag s id with
  | none => (404, s)
  | some _ =>
    (200, { s with
      notes := s.notes.map (fun n => { n with tags := n.tags.filter (fun t => t != id) }),
      tags := s.tags.filter (fun t => t.id != id) })

/-! ### groupController.js -/

/-- The `canEdit` / `canDelete` check of `updateGroup`, `deleteGroup`
and `addMemberToGroup`: Admin, or a Lead Editor who is the group's
`lead_editor`. -/
def canEditGroup (ctx : Ctx) (g : Group) : Bool :=
  hasRole ctx.roles Role.admin ||
  (hasRole ctx.roles Role.leadEditor && g.lead_editor == ctx.userId)

/-- `$addToSet: {accessible_groups: gid}` applied to every notebook
whose `_id` is in `nbids` (`Notebook.updateMany({_id: {$in: nbids}})`).
With `nbids = []` this is the identity, matching the skipped
`updateMany` when `notebook_ids` is empty or absent. -/
def addGroupToNotebooks (l : List Notebook) (nbids : List Nat) (gid : Nat) :
    List Notebook :=
  l.map (fun b =>
    if nbids.contains b.id && !(b.accessible_groups.contains gid) then
      { b with accessible_groups := b.accessible_groups ++ [gid] }
    else b)

/-- `$pull: {accessible_groups: gid}` applied to every notebook
(`Notebook.updateMany({accessible_groups: gid}, {$pull: ...})`). -/
def pullGroupFromNotebooks (l : List Notebook) (gid : Nat) : List Notebook :=
  l.map (fun b => { b with accessible_groups := b.accessible_groups.filter (fun x => x != gid) })

/-- `createGroup` (`POST /api/groups`): 403 unless Lead Editor or
Admin; 400 on empty name; stores the group with
`accessible_notebooks := notebook_ids` and adds the new group to each
listed notebook's `accessible_groups`. -/
def createGroup (s : Store) (ctx : Ctx) (newId : Nat) (group_name : String)
    (member_ids notebook_ids : Option (List Nat)) : Nat × Store :=
  if !(hasRole ctx.roles Role.leadEditor || hasRole ctx.roles Role.admin) then (403, s)
  else if group_name = "" then (400, s)
  else
    let nbids := notebook_ids.getD []
    let g : Group :=
      { id := newId, group_name := group_name, lead_editor := ctx.userId,
        members := member_ids.getD [], accessible_notebooks := nbids,
        attachments := [] }
    (201, { s with
      groups := s.groups ++ [g],
      notebooks := addGroupToNotebooks s.notebooks nbids newId })

/-- `updateGroup` (`PUT /api/groups/:id`).  When `notebook_ids` is
present: replace `accessible_notebooks`, pull the group from every
notebook, then add it to each notebook in the new list. -/
def updateGroup (s : Store) (ctx : Ctx) (id : Nat) (group_name : Option String)
    (member_ids notebook_ids : Option (List Nat)) : Nat × Store :=
  match findGroup s id with
  | none => (404, s)
  | some g =>
    if !(canEditGroup ctx g) then (403, s)
    else
      let g1 : Group :=
        { g with group_name := group_name.getD g.group_name,
                 members := member_ids.getD g.members }
      match notebook_ids with
      | none => (200, { s with groups := saveGroup s.groups g1 })
      | some nbids =>
        let g2 : Group := { g1 with accessible_notebooks := nbids }
        (200, { s with
          groups := saveGroup s.groups g2,
          notebooks := addGroupToNotebooks (pullGroupFromNotebooks s.notebooks id) nbids id })

/-- `deleteGroup` (`DELETE /api/groups/:id`): pulls the group from
every notebook's `accessible_groups`, then removes the group. -/
def deleteGroup (s : Store) (ctx : Ctx) (id : Nat) : Nat × Store :=
  match findGroup s id with
  | none => (404, s)
  | some g =>
    if !(canEditGroup ctx g) then (403, s)
    else
      (200, { s with
        notebooks := pullGroupFromNotebooks s.notebooks id,
        groups := s.groups.filter (fun x => x.id != id) })

/-! ### notebookController.js -/

/-- `createNotebook` (`POST /api/notebooks`): 400 on empty name; the
new notebook starts with empty `notes` and `accessible_groups`. -/
def createNotebook (s : Store) (ctx : Ctx) (newId : Nat)
    (notebook_name : String) (parent_notebook_id : Option Nat) : Nat × Store :=
  if notebook_name = "" then (400, s)
  else
    let b : Notebook :=
      { id := newId, notebook_name := notebook_name, owner := ctx.userId,
        parent_notebook := parent_notebook_id, notes := [],
        accessible_groups := [] }
    (201, { s with notebooks := s.notebooks ++ [b] })

/-- The query built by `getNotebooks` (`GET /api/notebooks`) for
non-admins: `$or: [{owner: userId}, {accessible_groups: {$in: []}}]`.
`$in` with the empty list matches no document: the second disjunct is
`accessible_groups` having some element contained in `[]`. -/
def matchesNotebooksQuery (ctx : Ctx) (b : Notebook) : Bool :=
  hasRole ctx.roles Role.admin ||
  (b.owner == ctx.userId ||
    b.accessible_groups.any (fun g => ([] : List Nat).contains g))

/-- `getNotebooks`: the set of notebooks returned (sorting omitted). -/
def getNotebooks (s : Store) (ctx : Ctx) : List Notebook :=
  s.notebooks.filter (matchesNotebooksQuery ctx)

/-- The `canDelete` check of `deleteNotebook`: Admin, Lead Editor, or
the notebook's owner. -/
def canDeleteNotebook (ctx : Ctx) (b : Notebook) : Bool :=
  hasRole ctx.roles Role.admin ||
  hasRole ctx.roles Role.leadEditor ||
  b.owner == ctx.userId

/-- `deleteNotebook` (`DELETE /api/notebooks/:id`): pulls the notebook
from every note's `notebooks` array, then removes the notebook.  (It
does not touch any group's `accessible_notebooks`.) -/
def deleteNotebook (s : Store) (ctx : Ctx) (id : Nat) : Nat × Store :=
  match findNotebook s id with
  | none => (404, s)
  | some b =>
    if !(canDeleteNotebook ctx b) then (403, s)
    else
      (200, { s with
        notes := s.notes.map (fun n => { n with notebooks := n.notebooks.filter (fun x => x != id) }),
        notebooks := s.notebooks.filter (fun x => x.id != id) })

/-! ### commentController.js and attachmentController.js -/

/-- The `canDelete` check of `deleteComment`: Admin, Editor, Lead
Editor, or the comment's author (`comment.user`). -/
def canDeleteComment (ctx : Ctx) (c : Comment) : Bool :=
  hasRole ctx.roles Role.admin ||
  hasRole ctx.roles Role.editor ||
  hasRole ctx.roles Role.leadEditor ||
  c.user == ctx.userId

/-- `deleteComment` (`DELETE /api/comments/:id`): pulls the comment
from its note's `comments` array, then removes the comment. -/
def deleteComment (s : Store) (ctx : Ctx) (id : Nat) : Nat × Store :=
  match findComment s id with
  | none => (404, s)
  | some c =>
    if !(canDeleteComment ctx c) then (403, s)
    else
      (200, { s with
        notes := s.notes.map (fun n =>
          if n.id == c.note then { n with comments := n.comments.filter (fun x => x != id) } else n),
        comments := s.comments.filter (fun x => x.id != id) })

/-- `getComments` (`GET /api/comments?note_id=...`): the set of
comments returned (sorting omitted). -/
def getComments (s : Store) (note_id : Option Nat) : List Comment :=
  s.comments.filter (fun c =>
    match note_id with
    | some nid => c.note == nid
    | none => true)

/-- `getAttachments` (`GET /api/attachments?parent_type=...&parent_id=...`):
the set of attachments returned (sorting omitted). -/
def getAttachments (s : Store) (parent_type : Option ParentType)
    (parent_id : Option Nat) : List Attachment :=
  s.attachments.filter (fun a =>
    (match parent_type with
     | some pt => a.parent_type == pt
     | none => true) &&
    (match parent_id with
     | some pid => a.parent_id == pid
     | none => true))

/-! ### authController.js -/

/-- JS `String.prototype.toLowerCase` over ASCII, character-wise: used
for `email.toLowerCase()` in `login` and for the `lowercase: true`
schema setter on the stored email. -/
def lowerStr (s : String) : String := ⟨s.data.map Char.toLower⟩

/-- Body of `POST /api/auth/signup`.  `roles = none` covers both an
absent `roles` field and a non-array value: the JS guard
`roles && Array.isArray(roles)` falls back to `['Contributor']` in
either case, and `some rs` is a caller-supplied array (the schema enum
restricts its elements to the four `Role`s). -/
structure SignupReq where
  user_name : String
  first_name : String
  last_name : String
  email : String
  password : String
  roles : Option (List Role)
deriving DecidableEq, Repr

/-- `signup`: 400 when a required field is missing (JS falsy = empty
string), 400 when some existing user has the same `email` or
`user_name` (`User.findOne({$or: [{email}, {user_name}]})`), otherwise
the new user is appended.  `hash` is the bcrypt pre-save hook; the
schema setter lowercases the stored email. -/
def signup (s : Store) (hash : String → String) (newId : Nat)
    (r : SignupReq) : Nat × Store :=
  if r.user_name = "" || r.first_name = "" || r.last_name = "" ||
      r.email = "" || r.password = "" then (400, s)
  else if s.users.any (fun u => u.email == r.email || u.user_name == r.user_name) then
    (400, s)
  else
    let u : User :=
      { id := newId, user_name := r.user_name, first_name := r.first_name,
        last_name := r.last_name, email := lowerStr r.email,
        password := hash r.password,
        roles := match r.roles with
                 | some rs => rs
                 | none => [Role.contributor] }
    (201, { s with users := s.users ++ [u] })

/-- `login`: 400 on missing fields; looks the user up by
`email.toLowerCase()`; unknown email and failed password check both
answer 401 with the same body.  `verify` is
`bcrypt.compare(candidate, storedHash)`. -/
def login (s : Store) (verify : String → String → Bool)
    (email password : String) : Nat × String :=
  if email = "" || password = "" then
    (400, "Please provide email and password")
  else
    match s.users.find? (fun u => u.email == lowerStr email) with
    | none => (401, "Invalid email or password")
    | some u =>
      if !(verify password u.password) then (401, "Invalid email or password")
      else (200, "Login successful")

/-! ### Invariants -/

/-- Tag-Note agreement (spec section 8): for every tag and note in the
store, the tag lists the note exactly when the note lists the tag. -/
def tagNoteAgree (s : Store) : Prop :=
  ∀ t ∈ s.tags, ∀ n ∈ s.notes, (t.id ∈ n.tags ↔ n.id ∈ t.notes)

instance (s : Store) : Decidable (tagNoteAgree s) := by
  unfold tagNoteAgree
  infer_instance

/-- Group-Notebook agreement (spec section 8): for every group and
notebook in the store, the notebook grants the group access exactly
when the group lists the notebook. -/
def groupNotebookAgree (s : Store) : Prop :=
  ∀ g ∈ s.groups, ∀ b ∈ s.notebooks, (g.id ∈ b.accessible_groups ↔ b.id ∈ g.accessible_notebooks)

instance (s : Store) : Decidable (groupNotebookAgree s) := by
  unfold groupNotebookAgree
  infer_instance

/-! ### Basic facts -/

theorem hasRole_iff {rs : List Role} {r : Role} : hasRole rs r = true ↔ r ∈ rs := by
  simp [hasRole]

theorem hasRole_eq_false {rs : List Role} {r : Role} (h : r ∉ rs) :
    hasRole rs r = false := by
  simpa [hasRole] using h

/-! ### Claim C1 -/

/-- Claim C1: a requester holding only the Contributor role, for every
private note created by someone else, gets 403 from the single-note
fetch, does not see the note in any list query, and gets 403 from both
update and delete. -/
theorem contributor_denied_on_foreign_private_note
    (s : Store) (ctx : Ctx) (n : Note) (req : UpdateNoteReq)
    (notebook_id tag_id user_id : Option Nat)
    (hroles : ctx.roles = [Role.contributor])
    (hn : findNote s n.id = some n)
    (hview : n.view_type = ViewType.vprivate)
    (hown : n.uid ≠ ctx.userId) :
    getNoteById s ctx n.id = 403 ∧
    n ∉ getNotes s ctx notebook_id tag_id user_id ∧
    (updateNote s ctx n.id req).1 = 403 ∧
    (deleteNote s ctx n.id).1 = 403 := by
  have hne : (n.uid == ctx.userId) = false := by simpa using hown
  have hadm : hasRole ctx.roles Role.admin = false := by rw [hroles]; rfl
  have hed : hasRole ctx.roles Role.editor = false := by rw [hroles]; rfl
  have hle : hasRole ctx.roles Role.leadEditor = false := by rw [hroles]; rfl
  have hcan : canEditNote ctx n = false := by
    simp [canEditNote, hadm, hed, hle, hne]
  refine ⟨?_, ?_, ?_, ?_⟩
  · simp [getNoteById, hn, hadm, hne, hview, hown]
  · intro hmem
    rw [getNotes, List.mem_filter] at hmem
    have hq := hmem.2
    simp [matchesNotesQuery, hadm, hne, hview] at hq
  · simp [updateNote, hn, hcan]
  · simp [deleteNote, hn, hcan]

def w1note : Note :=
  { id := 1, uid := 10, title := "t", content := "", tags := [],
    notebooks := [], connected_notes := [], attachments := [],
    comments := [], view_type := ViewType.vprivate }

def w1store : Store :=
  { users := [], notes := [w1note], tags := [], notebooks := [],
    groups := [], comments := [], attachments := [] }

def w1ctx : Ctx := { userId := 11, roles := [Role.contributor] }

def w1req : UpdateNoteReq :=
  { title := none, content := none, tags := none, notebook_ids := none,
    view_type := none }

/-- Witness for claim C1 at a concrete store. -/
theorem contributor_denied_on_foreign_private_note_w :
    w1ctx.roles = [Role.contributor] ∧
    findNote w1store w1note.id = some w1note ∧
    w1note.view_type = ViewType.vprivate ∧
    w1note.uid ≠ w1ctx.userId ∧
    (getNoteById w1store w1ctx w1note.id = 403 ∧
     w1note ∉ getNotes w1store w1ctx none none none ∧
     (updateNote w1store w1ctx w1note.id w1req).1 = 403 ∧
     (deleteNote w1store w1ctx w1note.id).1 = 403) :=
  ⟨rfl, rfl, rfl, by decide,
   contributor_denied_on_foreign_private_note w1store w1ctx w1note w1req
     none none none rfl rfl rfl (by decide)⟩

/-! ### Claim C2 -/

theorem tagNoteAgree_deleteNote (s : Store) (ctx : Ctx) (nid : Nat)
    (h : tagNoteAgree s) : tagNoteAgree (deleteNote s ctx nid).2 := by
  unfold deleteNote
  split
  · exact h
  · split
    · exact h
    · intro t' ht' n' hn'
      rw [List.mem_filter] at hn'
      exact h t' ht' n' hn'.1

theorem tagNoteAgree_deleteTag (s : Store) (tid : Nat)
    (h : tagNoteAgree s) : tagNoteAgree (deleteTag s tid).2 := by
  unfold deleteTag
  split
  · exact h
  · intro t' ht' n' hn'
    rw [List.mem_filter] at ht'
    obtain ⟨htmem, htid⟩ := ht'
    have htne : t'.id ≠ tid := by simpa using htid
    simp only [List.mem_map] at hn'
    obtain ⟨n0, hn0, rfl⟩ := hn'
    constructor
    · intro hx
      exact (h t' htmem n0 hn0).mp (List.mem_filter.mp hx).1
    · intro hx
      exact List.mem_filter.mpr ⟨(h t' htmem n0 hn0).mpr hx, by simpa using htne⟩


theorem tagNoteAgree_addTagToNote (s : Store) (noteId tagId : Nat)
    (h : tagNoteAgree s) : tagNoteAgree (addTagToNote s noteId tagId).2 := by
  unfold addTagToNote
  split
  next note tag hn ht =>
    have hmemN : note ∈ s.notes := List.mem_of_find?_eq_some hn
    have hidN : note.id = noteId := by simpa using List.find?_some hn
    have hmemT : tag ∈ s.tags := List.mem_of_find?_eq_some ht
    have hidT : tag.id = tagId := by simpa using List.find?_some ht
    split
    next hc =>
      have hcn : tagId ∉ note.tags := by
        intro hmm
        simp [hmm] at hc
      have hnotback : noteId ∉ tag.notes := by
        intro hmm
        exact hcn (hidT ▸ ((h tag hmemT note hmemN).mpr (hidN ▸ hmm)))
      split
      next hc2 =>
        intro t' ht' n' hn'
        simp only [saveTag, saveNote, List.mem_map] at ht' hn'
        obtain ⟨t0, ht0, rfl⟩ := ht'
        obtain ⟨n0, hn0, rfl⟩ := hn'
        cases h1 : t0.id == tag.id with
        | true =>
          have ht0id : t0.id = tag.id := by simpa using h1
          cases h2 : n0.id == note.id with
          | true =>
            have hn0id : n0.id = note.id := by simpa using h2
            simp [h1, h2, hidT, hidN, List.mem_append]
          | false =>
            have hn0id : n0.id ≠ noteId := by
              rw [← hidN]; simpa using h2
            have hinv := h tag hmemT n0 hn0
            simp [h1, h2, List.mem_append, hn0id, hinv]
        | false =>
          have ht0id : t0.id ≠ tagId := by
            rw [← hidT]; simpa using h1
          cases h2 : n0.id == note.id with
          | true =>
            have hn0id : n0.id = note.id := by simpa using h2
            have hinv := h t0 ht0 note hmemN
            simp [h1, h2, List.mem_append, ht0id, hidN, hinv]
          | false =>
            simp only [h1, h2, if_neg, Bool.false_eq_true, not_false_eq_true]
            exact h t0 ht0 n0 hn0
      next hc2 =>
        exact absurd (by simpa using (Bool.of_not_eq_true hc2)) hnotback
    next hc =>
      exact h
  next hfail =>
    exact h

def c2note : Note :=
  { id := 1, uid := 10, title := "t", content := "", tags := [5],
    notebooks := [], connected_notes := [], attachments := [],
    comments := [], view_type := ViewType.vprivate }

def c2tag : Tag := { id := 5, tag_name := "work", notes := [1] }

def c2store : Store :=
  { users := [], notes := [c2note], tags := [c2tag], notebooks := [],
    groups := [], comments := [], attachments := [] }

def c2req : UpdateNoteReq :=
  { title := none, content := none, tags := some [], notebook_ids := none,
    view_type := none }

def c2ctx : Ctx := { userId := 10, roles := [Role.contributor] }

def c2tagOnlyStore : Store :=
  { users := [], notes := [], tags := [{ id := 5, tag_name := "work", notes := [] }],
    notebooks := [], groups := [], comments := [], attachments := [] }

/-- Counterexample to claim C2 as stated: from a store where tag 5 and
note 1 agree, `updateNote` with a `tags` field empties `note.tags` but
leaves `tag.notes` untouched, and `createNote` with a `tags` list never
writes the back-reference either. -/
theorem tag_note_agree_not_preserved_by_updateNote :
    tagNoteAgree c2store ∧
    (updateNote c2store c2ctx 1 c2req).1 = 200 ∧
    ¬ tagNoteAgree (updateNote c2store c2ctx 1 c2req).2 ∧
    tagNoteAgree c2tagOnlyStore ∧
    (createNote c2tagOnlyStore c2ctx 1 "t" "" (some [5]) none none).1 = 201 ∧
    ¬ tagNoteAgree (createNote c2tagOnlyStore c2ctx 1 "t" "" (some [5]) none none).2 := by
  decide

/-- Claim C2 (amended): the Tag-Note agreement is an invariant of
`addTagToNote`, `deleteTag` and `deleteNote` (over the tags and notes
present in the store); it is not maintained by `updateNote` with a
`tags` field nor by `createNote` with a `tags` list, which write only
`Note.tags`. -/
theorem tag_note_agree_preserved
    (s : Store) (ctx : Ctx) (noteId tagId tid nid : Nat)
    (h : tagNoteAgree s) :
    tagNoteAgree (addTagToNote s noteId tagId).2 ∧
    tagNoteAgree (deleteTag s tid).2 ∧
    tagNoteAgree (deleteNote s ctx nid).2 :=
  ⟨tagNoteAgree_addTagToNote s noteId tagId h,
   tagNoteAgree_deleteTag s tid h,
   tagNoteAgree_deleteNote s ctx nid h⟩

/-- Witness for the amended claim C2 at a concrete store. -/
theorem tag_note_agree_preserved_w :
    tagNoteAgree c2store ∧
    (tagNoteAgree (addTagToNote c2store 1 5).2 ∧
     tagNoteAgree (deleteTag c2store 5).2 ∧
     tagNoteAgree (deleteNote c2store c2ctx 1).2) :=
  ⟨by decide, tag_note_agree_preserved c2store c2ctx 1 5 5 1 (by decide)⟩

/-! ### Claim C3 -/

/-- Claim C3: a permitted `deleteNote` removes the note, every comment
whose `note` field is the note, and every attachment whose parent is
`(Note, id)`; afterwards the single-note fetch answers 404 and the
comment / attachment queries for the note answer empty, while unrelated
comments and attachments survive. -/
theorem deleteNote_cascades
    (s : Store) (ctx ctx2 : Ctx) (id : Nat) (n : Note)
    (hn : findNote s id = some n)
    (hcan : canEditNote ctx n = true) :
    (deleteNote s ctx id).1 = 200 ∧
    findNote (deleteNote s ctx id).2 id = none ∧
    getNoteById (deleteNote s ctx id).2 ctx2 id = 404 ∧
    getComments (deleteNote s ctx id).2 (some id) = [] ∧
    getAttachments (deleteNote s ctx id).2 (some ParentType.pNote) (some id) = [] ∧
    (∀ c ∈ s.comments, c.note ≠ id → c ∈ (deleteNote s ctx id).2.comments) ∧
    (∀ a ∈ s.attachments, ¬(a.parent_type = ParentType.pNote ∧ a.parent_id = id) →
      a ∈ (deleteNote s ctx id).2.attachments) := by
  have hred : deleteNote s ctx id =
      (200, { s with
        comments := s.comments.filter (fun c => c.note != id),
        attachments := s.attachments.filter
          (fun a => !(a.parent_type == ParentType.pNote && a.parent_id == id)),
        notes := s.notes.filter (fun x => x.id != id) }) := by
    simp [deleteNote, hn, hcan]
  rw [hred]
  have hfn : findNote
      { s with
        comments := s.comments.filter (fun c => c.note != id),
        attachments := s.attachments.filter
          (fun a => !(a.parent_type == ParentType.pNote && a.parent_id == id)),
        notes := s.notes.filter (fun x => x.id != id) } id = none := by
    rw [findNote]
    apply List.find?_eq_none.mpr
    intro x hx hbeq
    rw [List.mem_filter] at hx
    have hne : x.id ≠ id := by simpa using hx.2
    exact hne (by simpa using hbeq)
  refine ⟨rfl, hfn, ?_, ?_, ?_, ?_, ?_⟩
  · rw [getNoteById, hfn]
  · simp only [getComments]
    rw [List.filter_eq_nil_iff]
    intro c hc
    rw [List.mem_filter] at hc
    have hne : c.note ≠ id := by simpa using hc.2
    simpa using hne
  · simp only [getAttachments]
    rw [List.filter_eq_nil_iff]
    intro a ha
    rw [List.mem_filter] at ha
    have hx := ha.2
    simp only [Bool.not_eq_true'] at hx
    simpa using hx
  · intro c hc hne
    exact List.mem_filter.mpr ⟨hc, by simpa using hne⟩
  · intro a ha hcond
    refine List.mem_filter.mpr ⟨ha, ?_⟩
    rw [not_and_or] at hcond
    rcases hcond with hx | hx <;> simp [hx]

def w3note : Note :=
  { id := 1, uid := 10, title := "t", content := "", tags := [],
    notebooks := [], connected_notes := [], attachments := [3],
    comments := [2], view_type := ViewType.vprivate }

def w3comment : Comment :=
  { id := 2, user := 11, note := 1, comment_text := "hi", attachments := [] }

def w3att : Attachment :=
  { id := 3, parent_type := ParentType.pNote, parent_id := 1,
    file_name := "f", file_type := "t", url := "u" }

def w3store : Store :=
  { users := [], notes := [w3note], tags := [], notebooks := [],
    groups := [], comments := [w3comment], attachments := [w3att] }

def w3ctx : Ctx := { userId := 10, roles := [Role.contributor] }

/-- Witness for claim C3 at a concrete store. -/
theorem deleteNote_cascades_w :
    findNote w3store 1 = some w3note ∧
    canEditNote w3ctx w3note = true ∧
    ((deleteNote w3store w3ctx 1).1 = 200 ∧
     findNote (deleteNote w3store w3ctx 1).2 1 = none ∧
     getNoteById (deleteNote w3store w3ctx 1).2 w3ctx 1 = 404 ∧
     getComments (deleteNote w3store w3ctx 1).2 (some 1) = [] ∧
     getAttachments (deleteNote w3store w3ctx 1).2 (some ParentType.pNote) (some 1) = [] ∧
     (∀ c ∈ w3store.comments, c.note ≠ 1 → c ∈ (deleteNote w3store w3ctx 1).2.comments) ∧
     (∀ a ∈ w3store.attachments, ¬(a.parent_type = ParentType.pNote ∧ a.parent_id = 1) →
       a ∈ (deleteNote w3store w3ctx 1).2.attachments)) :=
  ⟨rfl, rfl, deleteNote_cascades w3store w3ctx w3ctx 1 w3note rfl rfl⟩

/-! ### Claim C4 -/

theorem groupNotebookAgree_createGroup
    (s : Store) (ctx : Ctx) (newId : Nat) (gname : String)
    (member_ids notebook_ids : Option (List Nat))
    (h : groupNotebookAgree s)
    (hfg : ∀ g ∈ s.groups, g.id ≠ newId)
    (hfb : ∀ b ∈ s.notebooks, newId ∉ b.accessible_groups) :
    groupNotebookAgree (createGroup s ctx newId gname member_ids notebook_ids).2 := by
  unfold createGroup
  split
  · exact h
  · split
    · exact h
    · intro g' hg' b' hb'
      simp only [addGroupToNotebooks, List.mem_map] at hb'
      obtain ⟨b0, hb0, rfl⟩ := hb'
      rw [List.mem_append, List.mem_singleton] at hg'
      rcases hg' with hg' | rfl
      · have hne : g'.id ≠ newId := hfg g' hg'
        cases hcond : ((notebook_ids.getD []).contains b0.id &&
            !(b0.accessible_groups.contains newId)) with
        | true => simp [hcond, List.mem_append, hne, h g' hg' b0 hb0]
        | false => simp [hcond, h g' hg' b0 hb0]
      · cases hcond : ((notebook_ids.getD []).contains b0.id &&
            !(b0.accessible_groups.contains newId)) with
        | true =>
          have hin : b0.id ∈ notebook_ids.getD [] := by
            have hc := (Bool.and_eq_true _ _).mp hcond
            simpa using hc.1
          simp [hcond, List.mem_append, hin]
        | false =>
          have hnm : newId ∉ b0.accessible_groups := hfb b0 hb0
          have hout : b0.id ∉ notebook_ids.getD [] := by
            intro hmm
            have hc1 : (notebook_ids.getD []).contains b0.id = true := by
              simpa using hmm
            have hc2 : b0.accessible_groups.contains newId = false := by
              simpa using hnm
            rw [hc1, hc2] at hcond
            simp at hcond
          simp [hcond, hnm, hout]

theorem groupNotebookAgree_updateGroup
    (s : Store) (ctx : Ctx) (gid : Nat) (gname2 : Option String)
    (member_ids notebook_ids : Option (List Nat))
    (h : groupNotebookAgree s) :
    groupNotebookAgree (updateGroup s ctx gid gname2 member_ids notebook_ids).2 := by
  unfold updateGroup
  split
  · exact h
  next g hg =>
    have hgmem : g ∈ s.groups := List.mem_of_find?_eq_some hg
    have hgid : g.id = gid := by simpa using List.find?_some hg
    split
    · exact h
    · split
      · -- notebook_ids = none
        intro g' hg' b' hb'
        simp only [saveGroup, List.mem_map] at hg'
        obtain ⟨g0, hg0, rfl⟩ := hg'
        cases hcond : g0.id == g.id with
        | true => simpa [hcond] using h g hgmem b' hb'
        | false => simpa [hcond] using h g0 hg0 b' hb'
      next nbids =>
        intro g' hg' b' hb'
        simp only [saveGroup, List.mem_map] at hg'
        obtain ⟨g0, hg0, rfl⟩ := hg'
        simp only [addGroupToNotebooks, pullGroupFromNotebooks, List.map_map,
          List.mem_map, Function.comp] at hb'
        obtain ⟨b0, hb0, rfl⟩ := hb'
        have hnotin : gid ∉ b0.accessible_groups.filter (fun x => x != gid) := by
          intro hmm
          rw [List.mem_filter] at hmm
          simpa using hmm.2
        have hcontF : (b0.accessible_groups.filter (fun x => x != gid)).contains gid = false := by
          simp
        cases hcond : g0.id == g.id with
        | true =>
          cases hcb : nbids.contains b0.id with
          | true =>
            have hin : b0.id ∈ nbids := by simpa using hcb
            simp [hcond, hcb, hcontF, hgid, List.mem_append, hin]
          | false =>
            have hout : b0.id ∉ nbids := by simpa using hcb
            simp [hcond, hcb, hcontF, hgid, hnotin, hout]
        | false =>
          have hne : g0.id ≠ gid := by
            rw [← hgid]; simpa using hcond
          have hinv := h g0 hg0 b0 hb0
          cases hcb : nbids.contains b0.id with
          | true =>
            simp [hcond, hcb, hcontF, List.mem_append, List.mem_filter, hne, hinv]
          | false =>
            simp [hcond, hcb, hcontF, List.mem_filter, hne, hinv]

theorem groupNotebookAgree_deleteGroup
    (s : Store) (ctx : Ctx) (gid : Nat)
    (h : groupNotebookAgree s) :
    groupNotebookAgree (deleteGroup s ctx gid).2 := by
  unfold deleteGroup
  split
  · exact h
  next g hg =>
    split
    · exact h
    · intro g' hg' b' hb'
      rw [List.mem_filter] at hg'
      obtain ⟨hgmem, hgne⟩ := hg'
      have hne : g'.id ≠ gid := by simpa using hgne
      simp only [pullGroupFromNotebooks, List.mem_map] at hb'
      obtain ⟨b0, hb0, rfl⟩ := hb'
      simp [List.mem_filter, hne, h g' hgmem b0 hb0]

theorem groupNotebookAgree_deleteNotebook
    (s : Store) (ctx : Ctx) (bid : Nat)
    (h : groupNotebookAgree s) :
    groupNotebookAgree (deleteNotebook s ctx bid).2 := by
  unfold deleteNotebook
  split
  · exact h
  next b hb =>
    split
    · exact h
    · intro g' hg' b' hb'
      rw [List.mem_filter] at hb'
      exact h g' hg' b' hb'.1

theorem groupNotebookAgree_createNotebook
    (s : Store) (ctx : Ctx) (newId : Nat) (bname : String)
    (parent : Option Nat)
    (h : groupNotebookAgree s)
    (hfb : ∀ g ∈ s.groups, newId ∉ g.accessible_notebooks) :
    groupNotebookAgree (createNotebook s ctx newId bname parent).2 := by
  unfold createNotebook
  split
  · exact h
  · intro g' hg' b' hb'
    rw [List.mem_append, List.mem_singleton] at hb'
    rcases hb' with hb' | rfl
    · exact h g' hg' b' hb'
    · simp [hfb g' hg']

/-- Claim C4: the Group-Notebook agreement (over the groups and
notebooks present in the store) is preserved by `createGroup`,
`updateGroup`, `deleteGroup`, `deleteNotebook` and `createNotebook`;
for the creating operations, the freshly generated storage id is
assumed new to the store. -/
theorem group_notebook_agree_preserved
    (s : Store) (ctx : Ctx) (newGid newBid gid bid : Nat)
    (gname bname : String) (gname2 : Option String)
    (member_ids notebook_ids : Option (List Nat)) (parent : Option Nat)
    (h : groupNotebookAgree s)
    (hfg : ∀ g ∈ s.groups, g.id ≠ newGid)
    (hfb : ∀ b ∈ s.notebooks, newGid ∉ b.accessible_groups)
    (hfb2 : ∀ g ∈ s.groups, newBid ∉ g.accessible_notebooks) :
    groupNotebookAgree (createGroup s ctx newGid gname member_ids notebook_ids).2 ∧
    groupNotebookAgree (updateGroup s ctx gid gname2 member_ids notebook_ids).2 ∧
    groupNotebookAgree (deleteGroup s ctx gid).2 ∧
    groupNotebookAgree (deleteNotebook s ctx bid).2 ∧
    groupNotebookAgree (createNotebook s ctx newBid bname parent).2 :=
  ⟨groupNotebookAgree_createGroup s ctx newGid gname member_ids notebook_ids h hfg hfb,
   groupNotebookAgree_updateGroup s ctx gid gname2 member_ids notebook_ids h,
   groupNotebookAgree_deleteGroup s ctx gid h,
   groupNotebookAgree_deleteNotebook s ctx bid h,
   groupNotebookAgree_createNotebook s ctx newBid bname parent h hfb2⟩

def w4book : Notebook :=
  { id := 20, notebook_name := "b", owner := 10, parent_notebook := none,
    notes := [], accessible_groups := [30] }

def w4group : Group :=
  { id := 30, group_name := "g", lead_editor := 12, members := [11],
    accessible_notebooks := [20], attachments := [] }

def w4store : Store :=
  { users := [], notes := [], tags := [], notebooks := [w4book],
    groups := [w4group], comments := [], attachments := [] }

def w4ctx : Ctx := { userId := 12, roles := [Role.leadEditor] }

/-- Witness for claim C4 at a concrete store. -/
theorem group_notebook_agree_preserved_w :
    groupNotebookAgree w4store ∧
    (∀ g ∈ w4store.groups, g.id ≠ 31) ∧
    (∀ b ∈ w4store.notebooks, 31 ∉ b.accessible_groups) ∧
    (∀ g ∈ w4store.groups, 21 ∉ g.accessible_notebooks) ∧
    (groupNotebookAgree (createGroup w4store w4ctx 31 "h" none (some [20])).2 ∧
     groupNotebookAgree (updateGroup w4store w4ctx 30 none none (some [20])).2 ∧
     groupNotebookAgree (deleteGroup w4store w4ctx 30).2 ∧
     groupNotebookAgree (deleteNotebook w4store w4ctx 20).2 ∧
     groupNotebookAgree (createNotebook w4store w4ctx 21 "c" none).2) :=
  ⟨by decide, by decide, by decide, by decide,
   group_notebook_agree_preserved w4store w4ctx 31 21 30 20 "h" "c" none
     none (some [20]) none (by decide) (by decide) (by decide) (by decide)⟩

/-! ### Claim C5 -/

/-- Claim C5: update/delete of a note and delete of a comment are
permitted exactly when the requester holds Admin, Editor or Lead
Editor, or owns the resource (`note.UID` / `comment.user`); otherwise
the handler answers 403 and the store is unchanged. -/
theorem note_comment_write_permission
    (s : Store) (ctx : Ctx) (nid cid : Nat) (n : Note) (c : Comment)
    (req : UpdateNoteReq)
    (hn : findNote s nid = some n)
    (hc : findComment s cid = some c) :
    ((Role.admin ∈ ctx.roles ∨ Role.editor ∈ ctx.roles ∨
        Role.leadEditor ∈ ctx.roles ∨ n.uid = ctx.userId) →
      (updateNote s ctx nid req).1 = 200 ∧ (deleteNote s ctx nid).1 = 200) ∧
    (¬(Role.admin ∈ ctx.roles ∨ Role.editor ∈ ctx.roles ∨
        Role.leadEditor ∈ ctx.roles ∨ n.uid = ctx.userId) →
      (updateNote s ctx nid req).1 = 403 ∧ (updateNote s ctx nid req).2 = s ∧
      (deleteNote s ctx nid).1 = 403 ∧ (deleteNote s ctx nid).2 = s) ∧
    ((Role.admin ∈ ctx.roles ∨ Role.editor ∈ ctx.roles ∨
        Role.leadEditor ∈ ctx.roles ∨ c.user = ctx.userId) →
      (deleteComment s ctx cid).1 = 200) ∧
    (¬(Role.admin ∈ ctx.roles ∨ Role.editor ∈ ctx.roles ∨
        Role.leadEditor ∈ ctx.roles ∨ c.user = ctx.userId) →
      (deleteComment s ctx cid).1 = 403 ∧ (deleteComment s ctx cid).2 = s) := by
  have hcanN : canEditNote ctx n = true ↔
      (Role.admin ∈ ctx.roles ∨ Role.editor ∈ ctx.roles ∨
        Role.leadEditor ∈ ctx.roles ∨ n.uid = ctx.userId) := by
    simp [canEditNote, hasRole]
    tauto
  have hcanC : canDeleteComment ctx c = true ↔
      (Role.admin ∈ ctx.roles ∨ Role.editor ∈ ctx.roles ∨
        Role.leadEditor ∈ ctx.roles ∨ c.user = ctx.userId) := by
    simp [canDeleteComment, hasRole]
    tauto
  refine ⟨?_, ?_, ?_, ?_⟩
  · intro hperm
    have ht : canEditNote ctx n = true := hcanN.mpr hperm
    exact ⟨by simp [updateNote, hn, ht], by simp [deleteNote, hn, ht]⟩
  · intro hperm
    have hf : canEditNote ctx n = false :=
      Bool.eq_false_iff.mpr (fun hx => hperm (hcanN.mp hx))
    refine ⟨?_, ?_, ?_, ?_⟩ <;> simp [updateNote, deleteNote, hn, hf]
  · intro hperm
    have ht : canDeleteComment ctx c = true := hcanC.mpr hperm
    simp [deleteComment, hc, ht]
  · intro hperm
    have hf : canDeleteComment ctx c = false :=
      Bool.eq_false_iff.mpr (fun hx => hperm (hcanC.mp hx))
    exact ⟨by simp [deleteComment, hc, hf], by simp [deleteComment, hc, hf]⟩

def w5store : Store :=
  { users := [], notes := [w3note], tags := [], notebooks := [],
    groups := [], comments := [w3comment], attachments := [] }

def w5ctx : Ctx := { userId := 30, roles := [Role.editor] }

/-- Witness for claim C5 at a concrete store. -/
theorem note_comment_write_permission_w :
    findNote w5store 1 = some w3note ∧
    findComment w5store 2 = some w3comment ∧
    (((Role.admin ∈ w5ctx.roles ∨ Role.editor ∈ w5ctx.roles ∨
         Role.leadEditor ∈ w5ctx.roles ∨ w3note.uid = w5ctx.userId) →
       (updateNote w5store w5ctx 1 w1req).1 = 200 ∧
       (deleteNote w5store w5ctx 1).1 = 200) ∧
     (¬(Role.admin ∈ w5ctx.roles ∨ Role.editor ∈ w5ctx.roles ∨
         Role.leadEditor ∈ w5ctx.roles ∨ w3note.uid = w5ctx.userId) →
       (updateNote w5store w5ctx 1 w1req).1 = 403 ∧
       (updateNote w5store w5ctx 1 w1req).2 = w5store ∧
       (deleteNote w5store w5ctx 1).1 = 403 ∧
       (deleteNote w5store w5ctx 1).2 = w5store) ∧
     ((Role.admin ∈ w5ctx.roles ∨ Role.editor ∈ w5ctx.roles ∨
         Role.leadEditor ∈ w5ctx.roles ∨ w3comment.user = w5ctx.userId) →
       (deleteComment w5store w5ctx 2).1 = 200) ∧
     (¬(Role.admin ∈ w5ctx.roles ∨ Role.editor ∈ w5ctx.roles ∨
         Role.leadEditor ∈ w5ctx.roles ∨ w3comment.user = w5ctx.userId) →
       (deleteComment w5store w5ctx 2).1 = 403 ∧
       (deleteComment w5store w5ctx 2).2 = w5store)) :=
  ⟨rfl, rfl,
   note_comment_write_permission w5store w5ctx 1 2 w3note w3comment w1req rfl rfl⟩

/-! ### Claim C6 -/

/-- Claim C6: group creation is permitted exactly for Lead Editors and
Admins; group update and delete are permitted exactly for Admins and
for a Lead Editor who is the group's `lead_editor`; everyone else gets
403 with the store unchanged. -/
theorem group_permission
    (s : Store) (ctx : Ctx) (gid newId : Nat) (g : Group)
    (gname : String) (gname2 : Option String)
    (member_ids notebook_ids : Option (List Nat))
    (hg : findGroup s gid = some g) :
    (¬(Role.leadEditor ∈ ctx.roles ∨ Role.admin ∈ ctx.roles) →
      (createGroup s ctx newId gname member_ids notebook_ids).1 = 403 ∧
      (createGroup s ctx newId gname member_ids notebook_ids).2 = s) ∧
    ((Role.leadEditor ∈ ctx.roles ∨ Role.admin ∈ ctx.roles) →
      (createGroup s ctx newId gname member_ids notebook_ids).1 ≠ 403) ∧
    ((Role.admin ∈ ctx.roles ∨
        (Role.leadEditor ∈ ctx.roles ∧ g.lead_editor = ctx.userId)) →
      (updateGroup s ctx gid gname2 member_ids notebook_ids).1 = 200 ∧
      (deleteGroup s ctx gid).1 = 200) ∧
    (¬(Role.admin ∈ ctx.roles ∨
        (Role.leadEditor ∈ ctx.roles ∧ g.lead_editor = ctx.userId)) →
      (updateGroup s ctx gid gname2 member_ids notebook_ids).1 = 403 ∧
      (updateGroup s ctx gid gname2 member_ids notebook_ids).2 = s ∧
      (deleteGroup s ctx gid).1 = 403 ∧
      (deleteGroup s ctx gid).2 = s) := by
  have hcreate : (hasRole ctx.roles Role.leadEditor || hasRole ctx.roles Role.admin) = true ↔
      (Role.leadEditor ∈ ctx.roles ∨ Role.admin ∈ ctx.roles) := by
    simp [hasRole]
  have hedit : canEditGroup ctx g = true ↔
      (Role.admin ∈ ctx.roles ∨
        (Role.leadEditor ∈ ctx.roles ∧ g.lead_editor = ctx.userId)) := by
    simp [canEditGroup, hasRole]
  refine ⟨?_, ?_, ?_, ?_⟩
  · intro hperm
    have hf : (hasRole ctx.roles Role.leadEditor || hasRole ctx.roles Role.admin) = false :=
      Bool.eq_false_iff.mpr (fun hx => hperm (hcreate.mp hx))
    exact ⟨by simp [createGroup, hf], by simp [createGroup, hf]⟩
  · intro hperm
    have ht := hcreate.mpr hperm
    simp only [createGroup, ht, Bool.not_true, Bool.false_eq_true, if_false]
    split <;> simp
  · intro hperm
    have ht : canEditGroup ctx g = true := hedit.mpr hperm
    constructor
    · rw [updateGroup, hg]
      simp only [ht, Bool.not_true, Bool.false_eq_true, if_false]
      cases notebook_ids <;> simp
    · simp [deleteGroup, hg, ht]
  · intro hperm
    have hf : canEditGroup ctx g = false :=
      Bool.eq_false_iff.mpr (fun hx => hperm (hedit.mp hx))
    refine ⟨?_, ?_, ?_, ?_⟩ <;> simp [updateGroup, deleteGroup, hg, hf]

/-- Witness for claim C6 at a concrete store. -/
theorem group_permission_w :
    findGroup w4store 30 = some w4group ∧
    ((¬(Role.leadEditor ∈ w4ctx.roles ∨ Role.admin ∈ w4ctx.roles) →
       (createGroup w4store w4ctx 31 "h" none none).1 = 403 ∧
       (createGroup w4store w4ctx 31 "h" none none).2 = w4store) ∧
     ((Role.leadEditor ∈ w4ctx.roles ∨ Role.admin ∈ w4ctx.roles) →
       (createGroup w4store w4ctx 31 "h" none none).1 ≠ 403) ∧
     ((Role.admin ∈ w4ctx.roles ∨
         (Role.leadEditor ∈ w4ctx.roles ∧ w4group.lead_editor = w4ctx.userId)) →
       (updateGroup w4store w4ctx 30 none none none).1 = 200 ∧
       (deleteGroup w4store w4ctx 30).1 = 200) ∧
     (¬(Role.admin ∈ w4ctx.roles ∨
         (Role.leadEditor ∈ w4ctx.roles ∧ w4group.lead_editor = w4ctx.userId)) →
       (updateGroup w4store w4ctx 30 none none none).1 = 403 ∧
       (updateGroup w4store w4ctx 30 none none none).2 = w4store ∧
       (deleteGroup w4store w4ctx 30).1 = 403 ∧
       (deleteGroup w4store w4ctx 30).2 = w4store)) :=
  ⟨rfl, group_permission w4store w4ctx 30 31 w4group "h" none none none rfl⟩

/-! ### Claim C7 -/

/-- Claim C7: for a requester without the Admin role, `getNotebooks`
returns exactly the notebooks the requester owns: the
`accessible_groups: $in []` disjunct of its query matches nothing, so
group-based visibility never applies. -/
theorem getNotebooks_owner_only_for_non_admin
    (s : Store) (ctx : Ctx) (h : Role.admin ∉ ctx.roles) :
    getNotebooks s ctx = s.notebooks.filter (fun b => b.owner == ctx.userId) := by
  unfold getNotebooks
  apply List.filter_congr
  intro b hb
  simp [matchesNotebooksQuery, hasRole_eq_false h]

/-- Witness for claim C7 at a concrete store. -/
theorem getNotebooks_owner_only_for_non_admin_w :
    Role.admin ∉ w4ctx.roles ∧
    getNotebooks w4store w4ctx =
      w4store.notebooks.filter (fun b => b.owner == w4ctx.userId) :=
  ⟨by decide, getNotebooks_owner_only_for_non_admin w4store w4ctx (by decide)⟩

/-! ### Claim C8 -/

/-- Claim C8: a signup request whose email or user name equals that of
a stored user answers 400 and leaves the user collection (and the whole
store) unchanged. -/
theorem signup_duplicate_rejected
    (s : Store) (hash : String → String) (newId : Nat) (r : SignupReq)
    (hdup : ∃ u ∈ s.users, u.email = r.email ∨ u.user_name = r.user_name) :
    (signup s hash newId r).1 = 400 ∧ (signup s hash newId r).2 = s := by
  unfold signup
  split
  · exact ⟨rfl, rfl⟩
  · have hany : s.users.any
        (fun u => u.email == r.email || u.user_name == r.user_name) = true := by
      rw [List.any_eq_true]
      obtain ⟨u, hu, hcase⟩ := hdup
      refine ⟨u, hu, ?_⟩
      rcases hcase with hx | hx <;> simp [hx]
    rw [if_pos hany]
    exact ⟨rfl, rfl⟩

def w8user : User :=
  { id := 40, user_name := "alice", first_name := "A", last_name := "B",
    email := "a@b.c", password := "H", roles := [Role.contributor] }

def w8store : Store :=
  { users := [w8user], notes := [], tags := [], notebooks := [],
    groups := [], comments := [], attachments := [] }

def w8req : SignupReq :=
  { user_name := "alice", first_name := "X", last_name := "Y",
    email := "z@z.z", password := "pw", roles := none }

/-- Witness for claim C8 at a concrete store. -/
theorem signup_duplicate_rejected_w :
    (∃ u ∈ w8store.users, u.email = w8req.email ∨ u.user_name = w8req.user_name) ∧
    ((signup w8store id 41 w8req).1 = 400 ∧ (signup w8store id 41 w8req).2 = w8store) :=
  ⟨⟨w8user, by decide, Or.inr rfl⟩,
   signup_duplicate_rejected w8store id 41 w8req ⟨w8user, by decide, Or.inr rfl⟩⟩

/-! ### Claim C9 -/

/-- Claim C9: a login whose email matches no stored user and a login
whose email matches a user but whose password fails verification both
answer status 401 with the identical body, so the response does not
reveal whether the email is registered. -/
theorem login_does_not_reveal_email_existence
    (s1 s2 : Store) (verify : String → String → Bool)
    (email password : String)
    (he : email ≠ "") (hp : password ≠ "")
    (hex : ∃ u ∈ s1.users, u.email = lowerStr email)
    (hbad : ∀ u ∈ s1.users, u.email = lowerStr email →
      verify password u.password = false)
    (habs : ∀ u ∈ s2.users, u.email ≠ lowerStr email) :
    login s1 verify email password = (401, "Invalid email or password") ∧
    login s2 verify email password = (401, "Invalid email or password") := by
  constructor
  · rw [login, if_neg (by simp [he, hp])]
    cases hf : s1.users.find? (fun u => u.email == lowerStr email) with
    | none =>
      exfalso
      obtain ⟨u, hu, heq⟩ := hex
      have := List.find?_eq_none.mp hf u hu
      simp [heq] at this
    | some u =>
      have hmem : u ∈ s1.users := List.mem_of_find?_eq_some hf
      have heq : u.email = lowerStr email := by simpa using List.find?_some hf
      simp [hbad u hmem heq]
  · rw [login, if_neg (by simp [he, hp])]
    have hf : s2.users.find? (fun u => u.email == lowerStr email) = none := by
      apply List.find?_eq_none.mpr
      intro u hu
      simpa using habs u hu
    rw [hf]

def w9user : User :=
  { id := 40, user_name := "alice", first_name := "A", last_name := "B",
    email := "a@b.c", password := "hunter", roles := [Role.contributor] }

def w9store : Store :=
  { users := [w9user], notes := [], tags := [], notebooks := [],
    groups := [], comments := [], attachments := [] }

def w9empty : Store :=
  { users := [], notes := [], tags := [], notebooks := [],
    groups := [], comments := [], attachments := [] }

/-- Witness for claim C9 at a concrete pair of stores that differ only
in whether the email is registered. -/
theorem login_does_not_reveal_email_existence_w :
    ("a@b.c" : String) ≠ "" ∧ ("wrong" : String) ≠ "" ∧
    (∃ u ∈ w9store.users, u.email = lowerStr "a@b.c") ∧
    (∀ u ∈ w9store.users, u.email = lowerStr "a@b.c" →
      (fun c h => c == h : String → String → Bool) "wrong" u.password = false) ∧
    (∀ u ∈ w9empty.users, u.email ≠ lowerStr "a@b.c") ∧
    (login w9store (fun c h => c == h) "a@b.c" "wrong" =
        (401, "Invalid email or password") ∧
      login w9empty (fun c h => c == h) "a@b.c" "wrong" =
        (401, "Invalid email or password")) :=
  ⟨by decide, by decide, ⟨w9user, by decide, by decide⟩, by decide, by decide,
   login_does_not_reveal_email_existence w9store w9empty (fun c h => c == h)
     "a@b.c" "wrong" (by decide) (by decide)
     ⟨w9user, by decide, by decide⟩ (by decide) (by decide)⟩

/-! ### Claim C10 -/

/-- Claim C10: `signup` is unauthenticated (it takes no requester
context) and stores any caller-supplied roles array verbatim on the
created user, `['Admin']` included, while an absent or non-array
`roles` field yields `['Contributor']`. -/
theorem signup_stores_caller_roles
    (s : Store) (hash : String → String) (newId : Nat) (r : SignupReq)
    (hfields : r.user_name ≠ "" ∧ r.first_name ≠ "" ∧ r.last_name ≠ "" ∧
      r.email ≠ "" ∧ r.password ≠ "")
    (hnew : ∀ u ∈ s.users, u.email ≠ r.email ∧ u.user_name ≠ r.user_name) :
    (signup s hash newId r).1 = 201 ∧
    ∃ u : User, (signup s hash newId r).2.users = s.users ++ [u] ∧
      u.id = newId ∧
      (∀ rs, r.roles = some rs → u.roles = rs) ∧
      (r.roles = none → u.roles = [Role.contributor]) := by
  obtain ⟨h1, h2, h3, h4, h5⟩ := hfields
  have hany : s.users.any
      (fun u => u.email == r.email || u.user_name == r.user_name) = false := by
    rw [Bool.eq_false_iff]
    intro hx
    rw [List.any_eq_true] at hx
    obtain ⟨u, hu, hor⟩ := hx
    rcases (hnew u hu) with ⟨hne, hnn⟩
    rcases Bool.or_eq_true _ _ |>.mp hor with hx | hx
    · exact hne (by simpa using hx)
    · exact hnn (by simpa using hx)
  rw [signup, if_neg (by simp [h1, h2, h3, h4, h5]), if_neg (by simp [hany])]
  refine ⟨rfl,
    ⟨{ id := newId, user_name := r.user_name, first_name := r.first_name,
       last_name := r.last_name, email := lowerStr r.email,
       password := hash r.password,
       roles := match r.roles with
                | some rs => rs
                | none => [Role.contributor] },
     rfl, rfl, ?_, ?_⟩⟩
  · intro rs hrs
    simp [hrs]
  · intro hrs
    simp [hrs]

/-- Witness for claim C10: an unauthenticated signup whose body carries
`roles: ['Admin']` produces a stored user with the Admin role. -/
theorem signup_stores_caller_roles_w :
    (("bob" : String) ≠ "" ∧ ("X" : String) ≠ "" ∧ ("Y" : String) ≠ "" ∧
      ("b@b.c" : String) ≠ "" ∧ ("pw" : String) ≠ "") ∧
    (∀ u ∈ w8store.users, u.email ≠ ("b@b.c" : String) ∧
      u.user_name ≠ ("bob" : String)) ∧
    ((signup w8store id 41
        { user_name := "bob", first_name := "X", last_name := "Y",
          email := "b@b.c", password := "pw", roles := some [Role.admin] }).1 = 201 ∧
     ∃ u : User, (signup w8store id 41
        { user_name := "bob", first_name := "X", last_name := "Y",
          email := "b@b.c", password := "pw", roles := some [Role.admin] }).2.users =
          w8store.users ++ [u] ∧
       u.id = 41 ∧
       (∀ rs, (some [Role.admin] : Option (List Role)) = some rs → u.roles = rs) ∧
       ((some [Role.admin] : Option (List Role)) = none → u.roles = [Role.contributor])) :=
  ⟨by decide, by decide,
   signup_stores_caller_roles w8store id 41
     { user_name := "bob", first_name := "X", last_name := "Y",
       email := "b@b.c", password := "pw", roles := some [Role.admin] }
     (by decide) (by decide)⟩

end NoteApp
